import Mathlib

/-!
Verification of the pinning middleware in `multidb/middleware.py`
(django-multidb-router).

The file shallowly embeds the two middleware classes:

* `PinningRouterMiddleware` — propagates the pin decision through a
  client-held cookie;
* `PinUsingCacheRouterMiddleware` — propagates it through a shared cache
  store keyed by the session key.

Stateful pieces are made explicit: the per-worker thread-local pin flag is a
`Bool` threaded through `process_request`; the shared cache is a map from
keys to (value, absolute expiry) pairs, with the current time passed
explicitly so that TTLs are observable; the mutation of a response by
`set_cookie` is functional update.  Python truthiness of the values the code
branches on (`to_pin`, `session`, `session.session_key`,
`getattr(response, ..., False)`) is modelled by explicit `Option` matches.
-/

/-- Python truthiness of an optional string value as used by
`if to_pin or ...` and `if session.session_key`: `None` and the empty string
are falsy, every other string is truthy. -/
def truthy : Option String → Bool
  | none => false
  | some s => s != ""

/-- Django settings, as consulted by the two `getattr(settings, ..., default)`
calls at module import: either field may be absent (`none`). -/
structure Settings where
  MULTIDB_PINNING_COOKIE : Option String
  MULTIDB_PINNING_SECONDS : Option Nat

/-- A settings object with neither key set, so both defaults apply. -/
def default_settings : Settings :=
  { MULTIDB_PINNING_COOKIE := none, MULTIDB_PINNING_SECONDS := none }

/-- `PINNING_COOKIE = getattr(settings, 'MULTIDB_PINNING_COOKIE', 'multidb_pin_writes')` -/
def PINNING_COOKIE (st : Settings) : String :=
  st.MULTIDB_PINNING_COOKIE.getD "multidb_pin_writes"

/-- `PINNING_SECONDS = int(getattr(settings, 'MULTIDB_PINNING_SECONDS', 15))` -/
def PINNING_SECONDS (st : Settings) : Nat :=
  st.MULTIDB_PINNING_SECONDS.getD 15

/-- `READ_ONLY_METHODS = frozenset(['GET', 'TRACE', 'HEAD', 'OPTIONS'])` -/
def READ_ONLY_METHODS : List String := ["GET", "TRACE", "HEAD", "OPTIONS"]

/-- Modelled from the spec: `multidb/pinning.py` (imported by the middleware
as `from .pinning import pin_this_thread, unpin_this_thread`) is not among
the given source files.  Spec §4.1 gives its contract — `pin()` sets the
per-worker boolean flag true.  The flag is threaded explicitly. -/
def pin_this_thread (_s : Bool) : Bool := true

/-- Modelled from the spec: §4.1 — `unpin()` sets the per-worker flag false. -/
def unpin_this_thread (_s : Bool) : Bool := false

/-- A request as the cookie middleware reads it: the HTTP method and the
`COOKIES` dict (cookie name ↦ value; `none` = the name is absent). -/
structure HttpRequest where
  method : String
  COOKIES : String → Option String

/-- The Django session object attached to a request: its `session_key`
attribute may be `None`. -/
structure Session where
  session_key : Option String

/-- A request as the cache middleware reads it: the HTTP method and the
session; `session = none` models a missing/falsy session object. -/
structure CacheRequest where
  method : String
  session : Option Session

/-- A response as the middlewares touch it: the optional `_db_write`
attribute (`none` = the attribute was never set), the cookies set on the
response via `set_cookie` (name ↦ (value, max_age)), and the rest of the
payload, never touched by this code, abstracted as `content`. -/
structure HttpResponse where
  content : String
  db_write : Option Bool
  cookies : String → Option (String × Nat)

/-- `response.set_cookie(key, value=v, max_age=a)`: stores the cookie under
`key`, overwriting any existing cookie of that name; other fields are kept. -/
def HttpResponse.set_cookie (resp : HttpResponse) (key value : String)
    (max_age : Nat) : HttpResponse :=
  { resp with
    cookies := fun n => if n = key then some (value, max_age) else resp.cookies n }

/-- `getattr(response, '_db_write', False)`: the write marker, read by truth
value, defaulting to `False` when the attribute is absent. -/
def HttpResponse.get_db_write (resp : HttpResponse) : Bool :=
  resp.db_write.getD false

/-- The shared cache store: key ↦ (value, absolute expiry time).  Time is a
`Nat` passed explicitly to each operation. -/
def Cache : Type := String → Option (String × Nat)

/-- `cache.get(k)` at time `now`: the stored value while it has not expired,
otherwise `None`. -/
def cache_get (c : Cache) (now : Nat) (k : String) : Option String :=
  match c k with
  | some (v, e) => if now < e then some v else none
  | none => none

/-- `cache.set(k, v, ttl)` at time `now`: stores `v` under `k` with absolute
expiry `now + ttl`, overwriting any previous entry; other keys are kept. -/
def cache_set (c : Cache) (now : Nat) (k v : String) (ttl : Nat) : Cache :=
  fun q => if q = k then some (v, now + ttl) else c q

namespace PinningRouterMiddleware

/-- `PinningRouterMiddleware.process_request`: pins the thread when the
pinning cookie is present among the request's cookies or the method is not
read-only; otherwise unpins it (clearing any pin left by a prior request). -/
def process_request (st : Settings) (s : Bool) (r : HttpRequest) : Bool :=
  if (r.COOKIES (PINNING_COOKIE st)).isSome ||
      !(READ_ONLY_METHODS.contains r.method) then
    pin_this_thread s
  else
    unpin_this_thread s

/-- `PinningRouterMiddleware.process_response`: when the method is not
read-only or the response carries a truthy `_db_write` marker, sets the
pinning cookie to `'y'` with `max_age = PINNING_SECONDS`; returns the
response. -/
def process_response (st : Settings) (r : HttpRequest) (resp : HttpResponse) :
    HttpResponse :=
  if !(READ_ONLY_METHODS.contains r.method) || resp.get_db_write then
    resp.set_cookie (PINNING_COOKIE st) "y" (PINNING_SECONDS st)
  else
    resp

end PinningRouterMiddleware

namespace PinUsingCacheRouterMiddleware

/-- `PinUsingCacheRouterMiddleware.get_cache_key`: when the request has a
truthy session with a truthy `session_key`, the namespaced cache key;
otherwise `None`. -/
def get_cache_key (r : CacheRequest) : Option String :=
  match r.session with
  | some sess =>
    match sess.session_key with
    | some k =>
      if k != "" then
        some ("multidb.middleware.PinUsingCacheRouterMiddleware." ++ k)
      else
        none
    | none => none
  | none => none

/-- `PinUsingCacheRouterMiddleware.process_request`:
`to_pin = cache.get(cache_key) if cache_key else False`; pins when `to_pin`
is truthy or the method is not read-only, otherwise unpins. -/
def process_request (c : Cache) (now : Nat) (s : Bool) (r : CacheRequest) :
    Bool :=
  let cache_key := get_cache_key r
  let to_pin : Option String :=
    match cache_key with
    | some k => cache_get c now k
    | none => none
  if truthy to_pin || !(READ_ONLY_METHODS.contains r.method) then
    pin_this_thread s
  else
    unpin_this_thread s

/-- `PinUsingCacheRouterMiddleware.process_response`: when the method is not
read-only or the response carries a truthy `_db_write` marker, and a cache
key exists, writes `'y'` under that key with TTL `PINNING_SECONDS`; returns
the (store, response) pair. -/
def process_response (st : Settings) (c : Cache) (now : Nat) (r : CacheRequest)
    (resp : HttpResponse) : Cache × HttpResponse :=
  if !(READ_ONLY_METHODS.contains r.method) || resp.get_db_write then
    match get_cache_key r with
    | some cache_key => (cache_set c now cache_key "y" (PINNING_SECONDS st), resp)
    | none => (c, resp)
  else
    (c, resp)

end PinUsingCacheRouterMiddleware

/-- The spec's `evidencePresent` for the cookie channel (§4.2): the
configured cookie name exists among the request's cookies. -/
def cookie_evidence (st : Settings) (r : HttpRequest) : Bool :=
  (r.COOKIES (PINNING_COOKIE st)).isSome

/-- The spec's `evidencePresent` for the cache channel (§4.2): the cache key
derived from the session resolves to a non-empty (truthy) value. -/
def cache_evidence (c : Cache) (now : Nat) (r : CacheRequest) : Bool :=
  match PinUsingCacheRouterMiddleware.get_cache_key r with
  | some k => truthy (cache_get c now k)
  | none => false

/-- The spec's request classification (§4.4):
`isWrite = method ∉ READ_ONLY_METHODS OR response.hasWriteMarker`, the
marker defaulting to false when absent. -/
def is_write (m : String) (resp : HttpResponse) : Bool :=
  !(READ_ONLY_METHODS.contains m) || resp.get_db_write

/-- C1: for every incoming request, the detection phase (`process_request`
of either middleware) sets the pin state to exactly (propagation evidence
present OR method not read-only), for every prior pin state: it calls pin
when the disjunction holds and unpin otherwise, unconditionally. -/
theorem C1_detection_sets_pin_exactly (st : Settings) (s s' : Bool)
    (r : HttpRequest) (c : Cache) (now : Nat) (rc : CacheRequest) :
    PinningRouterMiddleware.process_request st s r =
      (cookie_evidence st r || !(READ_ONLY_METHODS.contains r.method)) ∧
    PinUsingCacheRouterMiddleware.process_request c now s' rc =
      (cache_evidence c now rc || !(READ_ONLY_METHODS.contains rc.method)) := by
  constructor
  · unfold PinningRouterMiddleware.process_request cookie_evidence
      pin_this_thread unpin_this_thread
    cases h : ((r.COOKIES (PINNING_COOKIE st)).isSome ||
        !(READ_ONLY_METHODS.contains r.method)) <;> simp [h]
  · unfold PinUsingCacheRouterMiddleware.process_request cache_evidence
      pin_this_thread unpin_this_thread
    cases hk : PinUsingCacheRouterMiddleware.get_cache_key rc <;>
      simp [hk, truthy]

/-- C2: the recording phase (`process_response` of either middleware)
classifies the request as a write exactly when the method is not read-only
or the `_db_write` marker is truthy (absent defaulting to false), and fires
the channel's record step — cookie set / keyed cache write with TTL
`PINNING_SECONDS` — if and only if that classification holds. -/
theorem C2_recording_iff_write (st : Settings) (r : HttpRequest)
    (resp : HttpResponse) (c : Cache) (now : Nat) (rc : CacheRequest)
    (respc : HttpResponse) :
    PinningRouterMiddleware.process_response st r resp =
      (if is_write r.method resp then
        resp.set_cookie (PINNING_COOKIE st) "y" (PINNING_SECONDS st)
      else resp) ∧
    PinUsingCacheRouterMiddleware.process_response st c now rc respc =
      (if is_write rc.method respc then
        match PinUsingCacheRouterMiddleware.get_cache_key rc with
        | some k => (cache_set c now k "y" (PINNING_SECONDS st), respc)
        | none => (c, respc)
      else (c, respc)) :=
  ⟨rfl, rfl⟩

/-- C3 as frozen is false on the cache middleware: at this concrete input the
cache entry for the session's key exists in the store (with the falsy value
`""`), yet detection does not pin a `GET` request — the stored value's
truthiness is interpreted. -/
theorem C3_counterexample :
    ((fun q => if q = "multidb.middleware.PinUsingCacheRouterMiddleware.abc"
        then some ("", 100) else none : Cache)
      "multidb.middleware.PinUsingCacheRouterMiddleware.abc").isSome = true ∧
    PinUsingCacheRouterMiddleware.get_cache_key
        { method := "GET", session := some { session_key := some "abc" } } =
      some "multidb.middleware.PinUsingCacheRouterMiddleware.abc" ∧
    PinUsingCacheRouterMiddleware.process_request
      (fun q => if q = "multidb.middleware.PinUsingCacheRouterMiddleware.abc"
        then some ("", 100) else none)
      0 true
      { method := "GET", session := some { session_key := some "abc" } } = false := by
  refine ⟨rfl, by decide, by decide⟩

/-- C3 (amended): when the named cookie key exists among the request's
cookies — any stored value — cookie detection pins; when the cache lookup
for the session's key yields a truthy (non-empty, unexpired) value, cache
detection pins.  The cookie's value is never interpreted; the cache value is
consulted only for truthiness. -/
theorem C3_amended_evidence_pins (st : Settings) (s s' : Bool)
    (r : HttpRequest) (v : String)
    (hv : r.COOKIES (PINNING_COOKIE st) = some v)
    (c : Cache) (now : Nat) (rc : CacheRequest)
    (hc : cache_evidence c now rc = true) :
    PinningRouterMiddleware.process_request st s r = true ∧
    PinUsingCacheRouterMiddleware.process_request c now s' rc = true := by
  constructor
  · unfold PinningRouterMiddleware.process_request pin_this_thread
      unpin_this_thread
    simp [hv]
  · unfold PinUsingCacheRouterMiddleware.process_request pin_this_thread
      unpin_this_thread
    unfold cache_evidence at hc
    cases hk : PinUsingCacheRouterMiddleware.get_cache_key rc <;>
      simp_all [truthy]

/-- C3 witness: a `GET` request whose cookie holds the value `"n"` pins, and
a `GET` request whose session key resolves in the cache to `"y"` pins. -/
theorem C3_amended_evidence_pins_witness :
    PinningRouterMiddleware.process_request default_settings false
      { method := "GET", COOKIES := fun _ => some "n" } = true ∧
    PinUsingCacheRouterMiddleware.process_request
      (fun _ => some ("y", 5)) 0 false
      { method := "GET", session := some { session_key := some "abc" } } = true :=
  C3_amended_evidence_pins default_settings false false
    { method := "GET", COOKIES := fun _ => some "n" } "n" rfl
    (fun _ => some ("y", 5)) 0
    { method := "GET", session := some { session_key := some "abc" } }
    (by decide)

/-- C4: for a request with no session or no (truthy) session key, the cache
middleware derives no cache key, so its lookup reports no evidence —
detection then depends only on the method — and its `process_response`
leaves the shared cache store entirely unchanged.  The embedding is total,
so no exception path exists. -/
theorem C4_no_session_fails_open (st : Settings) (c : Cache) (now : Nat)
    (s : Bool) (rc : CacheRequest) (resp : HttpResponse)
    (h : rc.session = none ∨ ∃ sess, rc.session = some sess ∧
          (sess.session_key = none ∨ sess.session_key = some "")) :
    PinUsingCacheRouterMiddleware.get_cache_key rc = none ∧
    PinUsingCacheRouterMiddleware.process_request c now s rc =
      !(READ_ONLY_METHODS.contains rc.method) ∧
    (PinUsingCacheRouterMiddleware.process_response st c now rc resp).1 = c := by
  have hk : PinUsingCacheRouterMiddleware.get_cache_key rc = none := by
    unfold PinUsingCacheRouterMiddleware.get_cache_key
    rcases h with h | ⟨sess, hs, hkey | hkey⟩
    · simp [h]
    · simp [hs, hkey]
    · simp [hs, hkey]
  refine ⟨hk, ?_, ?_⟩
  · unfold PinUsingCacheRouterMiddleware.process_request pin_this_thread
      unpin_this_thread
    cases hm : READ_ONLY_METHODS.contains rc.method <;> simp [hk, hm, truthy]
  · unfold PinUsingCacheRouterMiddleware.process_response
    cases hw : (!(READ_ONLY_METHODS.contains rc.method) || resp.get_db_write) <;>
      simp [hk, hw]

/-- C4 witness: a sessionless `POST` derives no cache key, pins by method
alone, and recording leaves the (empty) store unchanged. -/
theorem C4_no_session_fails_open_witness :
    PinUsingCacheRouterMiddleware.get_cache_key
      { method := "POST", session := none } = none ∧
    PinUsingCacheRouterMiddleware.process_request (fun _ => none) 0 false
      { method := "POST", session := none } =
      !(READ_ONLY_METHODS.contains "POST") ∧
    (PinUsingCacheRouterMiddleware.process_response default_settings
      (fun _ => none) 0 { method := "POST", session := none }
      { content := "", db_write := none, cookies := fun _ => none }).1 =
      (fun _ => none) :=
  C4_no_session_fails_open default_settings (fun _ => none) 0 false
    { method := "POST", session := none }
    { content := "", db_write := none, cookies := fun _ => none }
    (Or.inl rfl)

/-- C5: the pin state after detection depends on the current request alone —
for every prior pin state (including a stale pin), a read-only-method
request with no propagation evidence leaves detection with the flag false,
in both middlewares. -/
theorem C5_detection_resets_stale_pin (st : Settings) (s s' : Bool)
    (r : HttpRequest) (c : Cache) (now : Nat) (rc : CacheRequest)
    (h1 : READ_ONLY_METHODS.contains r.method = true)
    (h2 : cookie_evidence st r = false)
    (h3 : READ_ONLY_METHODS.contains rc.method = true)
    (h4 : cache_evidence c now rc = false) :
    PinningRouterMiddleware.process_request st s r = false ∧
    PinUsingCacheRouterMiddleware.process_request c now s' rc = false := by
  constructor
  · unfold PinningRouterMiddleware.process_request pin_this_thread
      unpin_this_thread
    unfold cookie_evidence at h2
    simp_all
  · unfold PinUsingCacheRouterMiddleware.process_request pin_this_thread
      unpin_this_thread
    unfold cache_evidence at h4
    cases hk : PinUsingCacheRouterMiddleware.get_cache_key rc <;>
      simp_all [truthy]

/-- C5 witness: with the worker still pinned from an earlier request
(prior state `true`), an evidence-free `GET` unpins in both middlewares. -/
theorem C5_detection_resets_stale_pin_witness :
    PinningRouterMiddleware.process_request default_settings true
      { method := "GET", COOKIES := fun _ => none } = false ∧
    PinUsingCacheRouterMiddleware.process_request (fun _ => none) 0 true
      { method := "GET", session := some { session_key := some "abc" } } = false :=
  C5_detection_resets_stale_pin default_settings true true
    { method := "GET", COOKIES := fun _ => none } (fun _ => none) 0
    { method := "GET", session := some { session_key := some "abc" } }
    rfl rfl rfl (by decide)

/-- C6: recording a write is an idempotent overwrite with expiry refresh —
after two write-classified responses for the same session the cache entry is
exactly `("y", now₂ + PINNING_SECONDS)`, independent of the original store
and of the first recording's time (hence of its remaining TTL), and lookup
observes the evidence immediately; for the cookie channel every recording
sets the cookie to `("y", PINNING_SECONDS)` whatever value it held before. -/
theorem C6_record_is_idempotent_refresh (st : Settings) (c : Cache)
    (t1 t2 : Nat) (rc : CacheRequest) (resp1 resp2 : HttpResponse) (k : String)
    (r : HttpRequest) (resp : HttpResponse)
    (hk : PinUsingCacheRouterMiddleware.get_cache_key rc = some k)
    (h1 : is_write rc.method resp1 = true)
    (h2 : is_write rc.method resp2 = true)
    (hp : 0 < PINNING_SECONDS st)
    (h3 : is_write r.method resp = true) :
    (PinUsingCacheRouterMiddleware.process_response st
        (PinUsingCacheRouterMiddleware.process_response st c t1 rc resp1).1
        t2 rc resp2).1 k = some ("y", t2 + PINNING_SECONDS st) ∧
    truthy (cache_get
      (PinUsingCacheRouterMiddleware.process_response st
        (PinUsingCacheRouterMiddleware.process_response st c t1 rc resp1).1
        t2 rc resp2).1 t2 k) = true ∧
    (PinningRouterMiddleware.process_response st r resp).cookies
      (PINNING_COOKIE st) = some ("y", PINNING_SECONDS st) := by
  unfold is_write at h1 h2 h3
  have hstore : (PinUsingCacheRouterMiddleware.process_response st
      (PinUsingCacheRouterMiddleware.process_response st c t1 rc resp1).1
      t2 rc resp2).1 k = some ("y", t2 + PINNING_SECONDS st) := by
    unfold PinUsingCacheRouterMiddleware.process_response
    rw [h1, h2]
    simp [hk, cache_set]
  refine ⟨hstore, ?_, ?_⟩
  · unfold cache_get
    rw [hstore]
    simp [truthy, Nat.lt_add_of_pos_right hp]
  · unfold PinningRouterMiddleware.process_response
    rw [h3]
    simp [HttpResponse.set_cookie]

/-- C6 witness: two `POST` recordings for session `abc` at times 3 and 10
leave the entry `("y", 25)` under the default 15-second window, lookup at
time 10 sees it, and a `POST` response's cookie reads `("y", 15)` even
though it previously held `("stale", 1)`. -/
theorem C6_record_is_idempotent_refresh_witness :
    (PinUsingCacheRouterMiddleware.process_response default_settings
        (PinUsingCacheRouterMiddleware.process_response default_settings
          (fun _ => none) 3
          { method := "POST", session := some { session_key := some "abc" } }
          { content := "", db_write := none, cookies := fun _ => none }).1
        10 { method := "POST", session := some { session_key := some "abc" } }
        { content := "", db_write := none, cookies := fun _ => none }).1
      "multidb.middleware.PinUsingCacheRouterMiddleware.abc" =
      some ("y", 10 + PINNING_SECONDS default_settings) ∧
    truthy (cache_get
      (PinUsingCacheRouterMiddleware.process_response default_settings
        (PinUsingCacheRouterMiddleware.process_response default_settings
          (fun _ => none) 3
          { method := "POST", session := some { session_key := some "abc" } }
          { content := "", db_write := none, cookies := fun _ => none }).1
        10 { method := "POST", session := some { session_key := some "abc" } }
        { content := "", db_write := none, cookies := fun _ => none }).1 10
      "multidb.middleware.PinUsingCacheRouterMiddleware.abc") = true ∧
    (PinningRouterMiddleware.process_response default_settings
      { method := "POST", COOKIES := fun _ => none }
      { content := "", db_write := none,
        cookies := fun _ => some ("stale", 1) }).cookies
      (PINNING_COOKIE default_settings) =
      some ("y", PINNING_SECONDS default_settings) :=
  C6_record_is_idempotent_refresh default_settings (fun _ => none) 3 10
    { method := "POST", session := some { session_key := some "abc" } }
    { content := "", db_write := none, cookies := fun _ => none }
    { content := "", db_write := none, cookies := fun _ => none }
    "multidb.middleware.PinUsingCacheRouterMiddleware.abc"
    { method := "POST", COOKIES := fun _ => none }
    { content := "", db_write := none, cookies := fun _ => some ("stale", 1) }
    (by decide) (by decide) (by decide) (by decide) (by decide)

/-- C7: the recorder never deletes or clears propagation evidence — for a
request/response pair not classified as a write, `process_response` of the
cookie middleware returns the response untouched (no cookie change) and the
cache middleware leaves the store untouched. -/
theorem C7_recorder_never_clears (st : Settings) (r : HttpRequest)
    (resp : HttpResponse) (c : Cache) (now : Nat) (rc : CacheRequest)
    (respc : HttpResponse)
    (h1 : is_write r.method resp = false)
    (h2 : is_write rc.method respc = false) :
    PinningRouterMiddleware.process_response st r resp = resp ∧
    PinUsingCacheRouterMiddleware.process_response st c now rc respc =
      (c, respc) := by
  unfold is_write at h1 h2
  constructor
  · unfold PinningRouterMiddleware.process_response
    rw [h1]
    simp
  · unfold PinUsingCacheRouterMiddleware.process_response
    rw [h2]
    simp

/-- C7 witness: a `GET` with no write marker leaves the response (which
already carries pinning evidence) and a non-empty store untouched. -/
theorem C7_recorder_never_clears_witness :
    PinningRouterMiddleware.process_response default_settings
      { method := "GET", COOKIES := fun _ => none }
      { content := "body", db_write := none,
        cookies := fun _ => some ("y", 7) } =
      { content := "body", db_write := none,
        cookies := fun _ => some ("y", 7) } ∧
    PinUsingCacheRouterMiddleware.process_response default_settings
      (fun _ => some ("y", 9)) 0
      { method := "GET", session := some { session_key := some "abc" } }
      { content := "body", db_write := none, cookies := fun _ => none } =
      ((fun _ => some ("y", 9)), 
        { content := "body", db_write := none, cookies := fun _ => none }) :=
  C7_recorder_never_clears default_settings
    { method := "GET", COOKIES := fun _ => none }
    { content := "body", db_write := none, cookies := fun _ => some ("y", 7) }
    (fun _ => some ("y", 9)) 0
    { method := "GET", session := some { session_key := some "abc" } }
    { content := "body", db_write := none, cookies := fun _ => none }
    (by decide) (by decide)

/-- C8: whenever recording fires, the evidence written is exactly the
configured cookie name (default `multidb_pin_writes`) with value `"y"` and
`Max-Age = PINNING_SECONDS` (default 15), or the cache key
`"multidb.middleware.PinUsingCacheRouterMiddleware." ++ sessionKey` with
value `"y"` and TTL `PINNING_SECONDS`. -/
theorem C8_evidence_wire_format (st : Settings) (r : HttpRequest)
    (resp : HttpResponse) (c : Cache) (now : Nat) (rc : CacheRequest)
    (respc : HttpResponse) (k sk : String)
    (h1 : is_write r.method resp = true)
    (hsess : rc.session = some { session_key := some sk })
    (hsk : sk ≠ "")
    (hk : PinUsingCacheRouterMiddleware.get_cache_key rc = some k)
    (h2 : is_write rc.method respc = true) :
    (PinningRouterMiddleware.process_response st r resp).cookies
      (PINNING_COOKIE st) = some ("y", PINNING_SECONDS st) ∧
    PINNING_COOKIE default_settings = "multidb_pin_writes" ∧
    PINNING_SECONDS default_settings = 15 ∧
    k = "multidb.middleware.PinUsingCacheRouterMiddleware." ++ sk ∧
    (PinUsingCacheRouterMiddleware.process_response st c now rc respc).1 k =
      some ("y", now + PINNING_SECONDS st) := by
  unfold is_write at h1 h2
  refine ⟨?_, rfl, rfl, ?_, ?_⟩
  · unfold PinningRouterMiddleware.process_response
    rw [h1]
    simp [HttpResponse.set_cookie]
  · unfold PinUsingCacheRouterMiddleware.get_cache_key at hk
    rw [hsess] at hk
    simp [hsk] at hk
    exact hk.symm
  · unfold PinUsingCacheRouterMiddleware.process_response
    rw [h2]
    simp [hk, cache_set]

/-- C8 witness: a `PUT` for session `abc123` writes exactly
`multidb.middleware.PinUsingCacheRouterMiddleware.abc123 = ("y", now + 15)`
and a `PUT` response gets cookie `multidb_pin_writes = ("y", 15)` under the
defaults. -/
theorem C8_evidence_wire_format_witness :
    (PinningRouterMiddleware.process_response default_settings
      { method := "PUT", COOKIES := fun _ => none }
      { content := "", db_write := none, cookies := fun _ => none }).cookies
      (PINNING_COOKIE default_settings) =
      some ("y", PINNING_SECONDS default_settings) ∧
    PINNING_COOKIE default_settings = "multidb_pin_writes" ∧
    PINNING_SECONDS default_settings = 15 ∧
    "multidb.middleware.PinUsingCacheRouterMiddleware.abc123" =
      "multidb.middleware.PinUsingCacheRouterMiddleware." ++ "abc123" ∧
    (PinUsingCacheRouterMiddleware.process_response default_settings
      (fun _ => none) 0
      { method := "PUT", session := some { session_key := some "abc123" } }
      { content := "", db_write := none, cookies := fun _ => none }).1
      "multidb.middleware.PinUsingCacheRouterMiddleware.abc123" =
      some ("y", 0 + PINNING_SECONDS default_settings) :=
  C8_evidence_wire_format default_settings
    { method := "PUT", COOKIES := fun _ => none }
    { content := "", db_write := none, cookies := fun _ => none }
    (fun _ => none) 0
    { method := "PUT", session := some { session_key := some "abc123" } }
    { content := "", db_write := none, cookies := fun _ => none }
    "multidb.middleware.PinUsingCacheRouterMiddleware.abc123" "abc123"
    (by decide) rfl (by decide) (by decide) (by decide)

/-- C9: `process_response` of either middleware returns the response it was
given — the cookie variant touches only the configured cookie on it (content,
write marker and every other cookie name are preserved), the cache variant
returns it identical and touches only the one derived cache key of the
store. -/
theorem C9_response_frame (st : Settings) (r : HttpRequest)
    (resp : HttpResponse) (n : String) (c : Cache) (now : Nat)
    (rc : CacheRequest) (respc : HttpResponse) (q : String)
    (hn : n ≠ PINNING_COOKIE st)
    (hq : PinUsingCacheRouterMiddleware.get_cache_key rc ≠ some q) :
    (PinningRouterMiddleware.process_response st r resp).content =
      resp.content ∧
    (PinningRouterMiddleware.process_response st r resp).db_write =
      resp.db_write ∧
    (PinningRouterMiddleware.process_response st r resp).cookies n =
      resp.cookies n ∧
    (PinUsingCacheRouterMiddleware.process_response st c now rc respc).2 =
      respc ∧
    (PinUsingCacheRouterMiddleware.process_response st c now rc respc).1 q =
      c q := by
  refine ⟨?_, ?_, ?_, ?_, ?_⟩
  · unfold PinningRouterMiddleware.process_response
    cases hw : (!(READ_ONLY_METHODS.contains r.method) || resp.get_db_write) <;>
      simp [hw, HttpResponse.set_cookie]
  · unfold PinningRouterMiddleware.process_response
    cases hw : (!(READ_ONLY_METHODS.contains r.method) || resp.get_db_write) <;>
      simp [hw, HttpResponse.set_cookie]
  · unfold PinningRouterMiddleware.process_response
    cases hw : (!(READ_ONLY_METHODS.contains r.method) || resp.get_db_write) <;>
      simp [hw, HttpResponse.set_cookie, hn]
  · unfold PinUsingCacheRouterMiddleware.process_response
    cases hwc :
        (!(READ_ONLY_METHODS.contains rc.method) || respc.get_db_write) <;>
      cases hk : PinUsingCacheRouterMiddleware.get_cache_key rc <;>
      simp [hwc, hk]
  · unfold PinUsingCacheRouterMiddleware.process_response
    cases hwc :
        (!(READ_ONLY_METHODS.contains rc.method) || respc.get_db_write)
    · simp [hwc]
    · cases hk : PinUsingCacheRouterMiddleware.get_cache_key rc
      · simp [hwc, hk]
      · rename_i k
        have hqk : q ≠ k := by
          intro h
          rw [h] at hq
          exact hq hk
        simp [hwc, hk, cache_set, hqk]

/-- C9 witness: a `POST` recording leaves content, marker, the cookie
`other`, and the store key `other` untouched in the respective variants. -/
theorem C9_response_frame_witness :
    (PinningRouterMiddleware.process_response default_settings
      { method := "POST", COOKIES := fun _ => none }
      { content := "body", db_write := some true,
        cookies := fun _ => some ("old", 3) }).content = "body" ∧
    (PinningRouterMiddleware.process_response default_settings
      { method := "POST", COOKIES := fun _ => none }
      { content := "body", db_write := some true,
        cookies := fun _ => some ("old", 3) }).db_write = some true ∧
    (PinningRouterMiddleware.process_response default_settings
      { method := "POST", COOKIES := fun _ => none }
      { content := "body", db_write := some true,
        cookies := fun _ => some ("old", 3) }).cookies "other" =
      some ("old", 3) ∧
    (PinUsingCacheRouterMiddleware.process_response default_settings
      (fun _ => some ("z", 4)) 0
      { method := "POST", session := some { session_key := some "abc" } }
      { content := "body", db_write := some true,
        cookies := fun _ => some ("old", 3) }).2 =
      { content := "body", db_write := some true,
        cookies := fun _ => some ("old", 3) } ∧
    (PinUsingCacheRouterMiddleware.process_response default_settings
      (fun _ => some ("z", 4)) 0
      { method := "POST", session := some { session_key := some "abc" } }
      { content := "body", db_write := some true,
        cookies := fun _ => some ("old", 3) }).1 "other" = some ("z", 4) :=
  have hcook :
      (({ content := "body", db_write := some true,
          cookies := fun _ => some ("old", 3) } :
        HttpResponse).cookies "other" = some (("old" : String), (3 : Nat))) := rfl
  hcook ▸ C9_response_frame default_settings
    { method := "POST", COOKIES := fun _ => none }
    { content := "body", db_write := some true,
      cookies := fun _ => some ("old", 3) } "other"
    (fun _ => some ("z", 4)) 0
    { method := "POST", session := some { session_key := some "abc" } }
    { content := "body", db_write := some true,
      cookies := fun _ => some ("old", 3) } "other"
    (by decide) (by decide)

/-- C10: the write marker is consulted by truth value, not presence — the
write classification with `_db_write = False` coincides with the attribute
being absent for every method, and a read-only-method request whose response
has `_db_write = False` records nothing: the cookie variant returns the
response unchanged, the cache variant leaves the store unchanged. -/
theorem C10_marker_truth_value (st : Settings) (m : String)
    (resp : HttpResponse) (r : HttpRequest) (c : Cache) (now : Nat)
    (rc : CacheRequest)
    (h1 : READ_ONLY_METHODS.contains r.method = true)
    (h2 : READ_ONLY_METHODS.contains rc.method = true) :
    is_write m { resp with db_write := some false } =
      is_write m { resp with db_write := none } ∧
    PinningRouterMiddleware.process_response st r
        { resp with db_write := some false } =
      { resp with db_write := some false } ∧
    (PinUsingCacheRouterMiddleware.process_response st c now rc
        { resp with db_write := some false }).1 = c := by
  have hw : ({ resp with db_write := some false } : HttpResponse).get_db_write
      = false := rfl
  refine ⟨rfl, ?_, ?_⟩
  · unfold PinningRouterMiddleware.process_response
    rw [hw, h1]
    simp
  · unfold PinUsingCacheRouterMiddleware.process_response
    rw [hw, h2]
    simp

/-- C10 witness: a `GET` whose response carries `_db_write = False` writes
neither cookie nor cache entry, exactly as with the attribute absent. -/
theorem C10_marker_truth_value_witness :
    is_write "GET"
        { content := "", db_write := some false, cookies := fun _ => none } =
      is_write "GET"
        { content := "", db_write := none, cookies := fun _ => none } ∧
    PinningRouterMiddleware.process_response default_settings
        { method := "GET", COOKIES := fun _ => none }
        { content := "", db_write := some false, cookies := fun _ => none } =
      { content := "", db_write := some false, cookies := fun _ => none } ∧
    (PinUsingCacheRouterMiddleware.process_response default_settings
        (fun _ => some ("y", 9)) 0
        { method := "GET", session := some { session_key := some "abc" } }
        { content := "", db_write := some false,
          cookies := fun _ => none }).1 =
      (fun _ => some ("y", 9)) :=
  C10_marker_truth_value default_settings "GET"
    { content := "", db_write := none, cookies := fun _ => none }
    { method := "GET", COOKIES := fun _ => none }
    (fun _ => some ("y", 9)) 0
    { method := "GET", session := some { session_key := some "abc" } }
    (by decide) (by decide)
